import Mathlib

/-
Verification of the bsource-database-backup core against its specification.

The development shallowly embeds the Python modules `app/db_dumper.py`,
`app/storage_provider.py`, `app/email_helper.py` and `app/main.py`:
pure string building is embedded as Lean functions on `String`; the
effectful parts (the external dump subprocess, the boto3 put, the SMTP
send, `os.path.exists`, `os.remove`, and the wall clock) are embedded by
passing their outcomes in explicitly as an oracle record (`RunEnv`) and
recording the observable actions of a run as a trace of `Event`s.
-/

-- ── Dates and strftime-style formatting ─────────────────────────────────────

/-- A civil date as read from the configured-timezone wall clock. -/
structure LocalDate where
  year : Nat
  month : Nat
  day : Nat
deriving DecidableEq, Repr

/-- A civil date-time as read from the configured-timezone wall clock. -/
structure LocalDateTime where
  date : LocalDate
  hour : Nat
  minute : Nat
  second : Nat
deriving DecidableEq, Repr

/-- The decimal digit character for `n % 10` (as strftime prints digits). -/
def digitChar (n : Nat) : Char := Char.ofNat (48 + n % 10)

/-- Two-digit zero-padded decimal rendering, as strftime `%m`, `%d`, `%H`… -/
def pad2 (n : Nat) : String := ⟨[digitChar (n / 10), digitChar n]⟩

/-- Four-digit zero-padded decimal rendering, as strftime `%Y` on civil years. -/
def pad4 (n : Nat) : String :=
  ⟨[digitChar (n / 1000), digitChar (n / 100), digitChar (n / 10), digitChar n]⟩

/-- `local_time.strftime("%Y%m%d")` from `_build_destination_path`. -/
def formatYYYYMMDD (d : LocalDate) : String :=
  pad4 d.year ++ pad2 d.month ++ pad2 d.day

/-- `local_time.strftime("%Y%m%d_%H%M%S")` from `gerar_backup`. -/
def formatTimestamp (t : LocalDateTime) : String :=
  formatYYYYMMDD t.date ++ "_" ++ pad2 t.hour ++ pad2 t.minute ++ pad2 t.second

/-- `local_time.strftime("%d/%m/%Y às %H:%M:%S")` from `gerar_backup`. -/
def formatBR (t : LocalDateTime) : String :=
  pad2 t.date.day ++ "/" ++ pad2 t.date.month ++ "/" ++ pad4 t.date.year ++
    " às " ++ pad2 t.hour ++ ":" ++ pad2 t.minute ++ ":" ++ pad2 t.second

/-- `local_time.isoformat()` restricted to its date-time core. -/
def formatISO (t : LocalDateTime) : String :=
  pad4 t.date.year ++ "-" ++ pad2 t.date.month ++ "-" ++ pad2 t.date.day ++
    "T" ++ pad2 t.hour ++ ":" ++ pad2 t.minute ++ ":" ++ pad2 t.second

-- ── Exceptions ──────────────────────────────────────────────────────────────

/-- The Python exception values that flow through the backup pipeline. -/
inductive Exn where
  | calledProcessError (returncode : Nat) (cmd : String)
  | clientError (code : String)
  | noCredentialsError
  | fileNotFoundError (msg : String)
  | osError (msg : String)
  | otherError (msg : String)
deriving DecidableEq, Repr

/-- `str(e)` for each exception kind, as CPython renders it. -/
def exnStr : Exn → String
  | .calledProcessError rc cmd =>
      "Command \x27" ++ cmd ++ "\x27 returned non-zero exit status " ++
        toString rc ++ "."
  | .clientError code =>
      "An error occurred (" ++ code ++ ") when calling the PutObject operation"
  | .noCredentialsError => "Unable to locate credentials"
  | .fileNotFoundError msg => msg
  | .osError msg => msg
  | .otherError msg => msg

-- ── db_dumper.py: configuration and constructors ────────────────────────────

/-- The state a `DatabaseDumper` instance holds after `__init__`. -/
structure DumperConfig where
  host : String
  port : String
  user : String
  password : String
  database : String
  db_type : String
deriving DecidableEq, Repr

/-- `DatabaseDumper.__init__`: Python `all([...])` truthiness check over the
five connection fields (an unset/empty field is falsy), then field storage. -/
def DatabaseDumper.init (host port user password database db_type : String) :
    Except String DumperConfig :=
  if host = "" ∨ port = "" ∨ user = "" ∨ password = "" ∨ database = "" then
    .error ("Configurações de base de dados incompletas. " ++
      "Verifique DB_HOST, DB_PORT, DB_USER, DB_PASSWORD e DB_DATABASE.")
  else
    .ok ⟨host, port, user, password, database, db_type⟩

/-- `DatabaseDumper.get_metadata`. -/
def DumperConfig.get_metadata (c : DumperConfig) : List (String × String) :=
  [("uploaded-by", "bsource-db-backup"),
   ("database", c.database),
   ("backup-type", c.db_type)]

/-- The supported `DB_TYPE` values (keys of `_DUMPER_MAP`). -/
inductive DbKind where
  | postgres
  | mysql
  | mariadb
  | mssql
deriving DecidableEq, Repr

/-- The three concrete dumper classes of `db_dumper.py`. -/
inductive DumperClass where
  | postgresDumper
  | mysqlDumper
  | mssqlDumper
deriving DecidableEq, Repr

/-- `_DUMPER_MAP`: which class the factory instantiates for each kind
(MySQL and MariaDB share `MySQLDumper`). -/
def dumperClassFor : DbKind → DumperClass
  | .postgres => .postgresDumper
  | .mysql => .mysqlDumper
  | .mariadb => .mysqlDumper
  | .mssql => .mssqlDumper

/-- `get_file_extension` of each dumper class. -/
def DumperClass.get_file_extension : DumperClass → String
  | .postgresDumper => ".sql"
  | .mysqlDumper => ".sql"
  | .mssqlDumper => ".bak"

-- ── db_dumper.py: the dump methods ──────────────────────────────────────────

/-- Observable actions of one `dump` call, in order. -/
inductive DumpEvent where
  | setEnvVar (key value : String)
  | runProcess (cmd : String)
deriving DecidableEq, Repr

/-- `os.environ[k] = v` on an association-list process environment. -/
def setEnv (env : List (String × String)) (k v : String) :
    List (String × String) :=
  (k, v) :: env

/-- `os.environ.get(k)` on the association-list process environment. -/
def lookupEnv (env : List (String × String)) (k : String) : Option String :=
  (env.find? (fun p => p.1 = k)).map Prod.snd

/-- Result of one `dump` call: its action trace, the log lines it emitted,
the process environment after the call, and its return/raise. -/
structure DumpOutcome where
  trace : List DumpEvent
  logs : List String
  osEnv : List (String × String)
  result : Except Exn String
deriving Repr

/-- The `pg_dump` command string interpolated by `PostgresDumper.dump`
(the password is not part of it; it travels via `PGPASSWORD`). -/
def pgDumpCommand (c : DumperConfig) (output_path : String) : String :=
  "pg_dump -h " ++ c.host ++ " -p " ++ c.port ++ " -U " ++ c.user ++
    " -F c -b -v -f " ++ output_path ++ " " ++ c.database

/-- `PostgresDumper.dump`: sets `PGPASSWORD`, logs the command, runs it;
a nonzero exit raises `CalledProcessError` carrying the command string. -/
def PostgresDumper.dump (c : DumperConfig) (osEnv : List (String × String))
    (output_path : String) (processOk : Bool) (returncode : Nat) : DumpOutcome :=
  let osEnv1 := setEnv osEnv "PGPASSWORD" c.password
  let command := pgDumpCommand c output_path
  { trace := [DumpEvent.setEnvVar "PGPASSWORD" c.password,
              DumpEvent.runProcess command]
    logs := ["Executando: " ++ command]
    osEnv := osEnv1
    result := if processOk then .ok output_path
              else .error (.calledProcessError returncode command) }

/-- The `mysqldump` command string interpolated by `MySQLDumper.dump`
(contains the plaintext password). -/
def mysqlCommand (c : DumperConfig) (output_path : String) : String :=
  "mysqldump --host=" ++ c.host ++ " --port=" ++ c.port ++
    " --user=" ++ c.user ++ " --password=" ++ c.password ++
    " --single-transaction --routines --triggers --databases " ++
    c.database ++ " --result-file=" ++ output_path

/-- The redacted command line `MySQLDumper.dump` writes to the log. -/
def mysqlRedactedLog (c : DumperConfig) (output_path : String) : String :=
  "Executando: mysqldump --host=" ++ c.host ++ " --port=" ++ c.port ++
    " --user=" ++ c.user ++ " --password=****** " ++
    "--single-transaction --routines --triggers --databases " ++
    c.database ++ " --result-file=" ++ output_path

/-- `MySQLDumper.dump`. -/
def MySQLDumper.dump (c : DumperConfig) (osEnv : List (String × String))
    (output_path : String) (processOk : Bool) (returncode : Nat) : DumpOutcome :=
  let command := mysqlCommand c output_path
  { trace := [DumpEvent.runProcess command]
    logs := [mysqlRedactedLog c output_path]
    osEnv := osEnv
    result := if processOk then .ok output_path
              else .error (.calledProcessError returncode command) }

/-- The T-SQL backup statement interpolated by `MSSQLDumper.dump`. -/
def mssqlBackupQuery (c : DumperConfig) (output_path : String) : String :=
  "BACKUP DATABASE [" ++ c.database ++ "] TO DISK = N\x27" ++ output_path ++
    "\x27 WITH FORMAT, INIT, COMPRESSION, NAME = N\x27" ++ c.database ++
    "-backup\x27"

/-- The `sqlcmd` command string interpolated by `MSSQLDumper.dump`
(contains the plaintext password after `-P`). -/
def mssqlCommand (c : DumperConfig) (output_path : String) : String :=
  "sqlcmd -S " ++ c.host ++ "," ++ c.port ++ " -U " ++ c.user ++ " -P " ++
    c.password ++ " -Q \"" ++ mssqlBackupQuery c output_path ++ "\" -C"

/-- The redacted command line `MSSQLDumper.dump` writes to the log. -/
def mssqlRedactedLog (c : DumperConfig) : String :=
  "Executando: sqlcmd -S " ++ c.host ++ "," ++ c.port ++ " -U " ++ c.user ++
    " -P ****** -Q \"BACKUP DATABASE ...\" -C"

/-- `MSSQLDumper.dump`. -/
def MSSQLDumper.dump (c : DumperConfig) (osEnv : List (String × String))
    (output_path : String) (processOk : Bool) (returncode : Nat) : DumpOutcome :=
  let command := mssqlCommand c output_path
  { trace := [DumpEvent.runProcess command]
    logs := [mssqlRedactedLog c]
    osEnv := osEnv
    result := if processOk then .ok output_path
              else .error (.calledProcessError returncode command) }

/-- A constructed dumper instance: its concrete class plus its stored fields. -/
structure Dumper where
  cls : DumperClass
  config : DumperConfig
deriving Repr

/-- Virtual dispatch of `dump` over the dumper class. -/
def Dumper.dump (d : Dumper) (osEnv : List (String × String))
    (output_path : String) (processOk : Bool) (returncode : Nat) : DumpOutcome :=
  match d.cls with
  | .postgresDumper => PostgresDumper.dump d.config osEnv output_path processOk returncode
  | .mysqlDumper => MySQLDumper.dump d.config osEnv output_path processOk returncode
  | .mssqlDumper => MSSQLDumper.dump d.config osEnv output_path processOk returncode

/-- The command string `Dumper.dump` hands to `subprocess.run`. -/
def Dumper.command (d : Dumper) (output_path : String) : String :=
  match d.cls with
  | .postgresDumper => pgDumpCommand d.config output_path
  | .mysqlDumper => mysqlCommand d.config output_path
  | .mssqlDumper => mssqlCommand d.config output_path

-- ── storage_provider.py ─────────────────────────────────────────────────────

/-- The fields `StorageProvider.__init__` stores on every provider. -/
structure StorageFields where
  access_key_id : String
  secret_access_key : String
  bucket_name : String
  destination_folder : String
deriving DecidableEq, Repr

/-- `StorageProvider.__init__`: `all([...])` truthiness over the three
credential/bucket fields, then `destination_folder or "backups/"`
(`None` or the empty string both fall back to the default). -/
def StorageProvider.initBase (access_key_id secret_access_key bucket_name : String)
    (destination_folder : Option String) : Except String StorageFields :=
  if access_key_id = "" ∨ secret_access_key = "" ∨ bucket_name = "" then
    .error ("Configurações de storage incompletas. " ++
      "Verifique STORAGE_ACCESS_KEY_ID, STORAGE_SECRET_ACCESS_KEY e STORAGE_BUCKET_NAME.")
  else
    .ok { access_key_id := access_key_id
          secret_access_key := secret_access_key
          bucket_name := bucket_name
          destination_folder :=
            match destination_folder with
            | none => "backups/"
            | some f => if f = "" then "backups/" else f }

/-- An `R2Storage` instance: the endpoint plus the base provider fields. -/
structure R2State where
  endpoint_url : String
  base : StorageFields
deriving DecidableEq, Repr

/-- `R2Storage.__init__`: endpoint check, then the base-class check. -/
def R2Storage.init (endpoint_url access_key_id secret_access_key bucket_name : String)
    (destination_folder : Option String) : Except String R2State :=
  if endpoint_url = "" then
    .error "STORAGE_ENDPOINT_URL é obrigatório para Cloudflare R2."
  else
    (StorageProvider.initBase access_key_id secret_access_key bucket_name
      destination_folder).map (fun b => ⟨endpoint_url, b⟩)

/-- An `S3Storage` instance: region, optional endpoint, base fields. -/
structure S3State where
  region : String
  endpoint_url : Option String
  base : StorageFields
deriving DecidableEq, Repr

/-- `S3Storage.__init__`: region check, then the base-class check. -/
def S3Storage.init (access_key_id secret_access_key bucket_name region : String)
    (endpoint_url : Option String) (destination_folder : Option String) :
    Except String S3State :=
  if region = "" then
    .error "STORAGE_REGION é obrigatório para AWS S3 (ex: us-east-1)."
  else
    (StorageProvider.initBase access_key_id secret_access_key bucket_name
      destination_folder).map (fun b => ⟨region, endpoint_url, b⟩)

/-- Python `s.rstrip("/")`: drop every trailing `/`. -/
def rstripSlash (s : String) : String :=
  ⟨(s.data.reverse.dropWhile (fun c => c == '/')).reverse⟩

/-- `StorageProvider._build_destination_path`, with the date that the source
reads from the clock passed in explicitly. -/
def build_destination_path (destination_folder : String) (d : LocalDate)
    (filename : String) : String :=
  let base_folder :=
    if destination_folder = "" then "" else rstripSlash destination_folder ++ "/"
  let date_folder := formatYYYYMMDD d
  base_folder ++ date_folder ++ "/" ++ filename

/-- Result of one `upload_file` call: whether the lazy boto3 client exists
afterwards, how many network operations were issued, the log lines, and the
return/raise. -/
structure UploadOutcome where
  hasClient : Bool
  networkCalls : Nat
  logs : List String
  result : Except Exn String
deriving Repr

/-- `StorageProvider.upload_file`: the `os.path.exists` precondition check
happens before the lazy `client` property is first touched and before any
network call; only then is the destination path built, the client created on
first use, and a single put issued whose outcome is the `putResult` oracle. -/
def upload_file (s : StorageFields) (hasClient : Bool)
    (local_filepath filename : String) (metadata : List (String × String))
    (fileExists : Bool) (d : LocalDate) (putResult : Except Exn Unit) :
    UploadOutcome :=
  if fileExists = false then
    { hasClient := hasClient
      networkCalls := 0
      logs := []
      result := .error (.fileNotFoundError
        ("Arquivo não encontrado: " ++ local_filepath)) }
  else
    let destination_path := build_destination_path s.destination_folder d filename
    let logs0 := ["📤 Iniciando upload: " ++ destination_path]
    match putResult with
    | .ok _ =>
        { hasClient := true
          networkCalls := 1
          logs := logs0 ++ ["✅ Upload concluído com sucesso"]
          result := .ok destination_path }
    | .error e =>
        { hasClient := true
          networkCalls := 1
          logs := logs0 ++
            (match e with
             | .clientError code => ["❌ Erro do cliente storage: " ++ code]
             | .noCredentialsError => ["❌ Credenciais de storage inválidas ou ausentes"]
             | e2 => ["❌ Erro inesperado no upload: " ++ exnStr e2])
          result := .error e }

-- ── main.py and email_helper.py: the orchestration routine ──────────────────

/-- Observable actions of one `gerar_backup` run, in order. -/
inductive Event where
  | logged (msg : String)
  | uploadInvoked (local_filepath filename : String)
  | notified (subject body : String)
  | removedFile (path : String)
deriving DecidableEq, Repr

/-- `enviar_email` (email_helper.py): records the notification handed to the
notifier boundary; an SMTP failure is caught inside the helper and logged,
so the helper itself never raises. -/
def enviar_email (subject body : String) (emailOk : Bool) (emailErrMsg : String) :
    List Event :=
  Event.notified subject body ::
    (if emailOk then [Event.logged "✉️ E-mail enviado com sucesso."]
     else [Event.logged ("❌ Falha ao enviar e-mail: " ++ emailErrMsg)])

/-- The module-level state `main.py` holds when `gerar_backup` runs. -/
structure Orchestrator where
  dumper : Option Dumper
  storage : Option StorageFields
  storage_type : String
  db_database : String
  db_type : String
  timezone_name : String
deriving Repr

/-- Oracle for the effects one run encounters: the wall-clock reads, the dump
subprocess exit, the `os.path.exists` checks, the boto3 put outcome, the
`os.remove` outcome, and the SMTP outcome. -/
structure RunEnv where
  now1 : LocalDateTime
  now2 : LocalDateTime
  uploadDate : LocalDate
  dumpOk : Bool
  dumpReturncode : Nat
  fileExistsForUpload : Bool
  putResult : Except Exn Unit
  fileExistsAtCleanup : Bool
  removeOk : Bool
  removeErrMsg : String
  emailOk : Bool
  emailErrMsg : String

/-- Result of one `gerar_backup` run: the trace of observable actions, the
exception (if any) that escapes to the caller, and whether the local temp
file still exists at run end. -/
structure RunResult where
  events : List Event
  raised : Option Exn
  finalFileExists : Bool
deriving Repr

/-- The `finally` block of `gerar_backup`: if the temp file exists it is
removed — and `os.remove` is NOT wrapped in a try/except, so a removal
error escapes to the caller (replacing nothing, since every exception of
the try body was caught by the two handlers). -/
def cleanup (backup_filepath : String) (env : RunEnv) (preEvents : List Event) :
    RunResult :=
  if env.fileExistsAtCleanup then
    if env.removeOk then
      { events := preEvents ++ [Event.removedFile backup_filepath,
          Event.logged "🗑️ Arquivo de backup local removido."]
        raised := none
        finalFileExists := false }
    else
      { events := preEvents
        raised := some (Exn.osError env.removeErrMsg)
        finalFileExists := true }
  else
    { events := preEvents, raised := none, finalFileExists := false }

/-- `gerar_backup` (main.py): guard on the configured collaborators, build
the timestamped filename, dump, upload, notify, and clean up in `finally`.
The `except subprocess.CalledProcessError` handler receives exactly the dump
failures (the dump body raises only `CalledProcessError`), and the
`except (ClientError, NoCredentialsError, Exception)` handler receives every
exception of the upload phase, mirroring the source's dispatch by type. -/
def gerar_backup (o : Orchestrator) (env : RunEnv) : RunResult :=
  let ev0 := [Event.logged "🔄 Iniciando backup..."]
  match o.dumper with
  | none =>
      { events := ev0 ++ [Event.logged "❌ Dumper não configurado. Backup cancelado."]
        raised := none
        finalFileExists := false }
  | some d =>
    match o.storage with
    | none =>
        { events := ev0 ++ [Event.logged "❌ Storage não configurado. Backup cancelado."]
          raised := none
          finalFileExists := false }
    | some s =>
      let timestamp := formatTimestamp env.now1
      let extension := d.cls.get_file_extension
      let backup_filename := "backup_" ++ o.db_database ++ "_" ++ timestamp ++ extension
      let backup_filepath := "/tmp/" ++ backup_filename
      let dOut := Dumper.dump d [] backup_filepath env.dumpOk env.dumpReturncode
      let ev1 := ev0 ++ dOut.logs.map Event.logged
      match dOut.result with
      | .error e =>
          let data_hora_br := formatBR env.now2
          let body := "Falha ao gerar o backup da base de dados \x27" ++
            o.db_database ++ "\x27 (" ++ o.db_type ++ ") em " ++ data_hora_br ++
            " (" ++ o.timezone_name ++ ").\n\nErro: " ++ exnStr e
          let ev2 := ev1 ++ [Event.logged ("❌ Erro ao gerar backup: " ++ exnStr e)] ++
            enviar_email "Database Backup - ERRO" body env.emailOk env.emailErrMsg
          cleanup backup_filepath env ev2
      | .ok _ =>
          let ev2 := ev1 ++ [Event.logged ("✅ Backup gerado: " ++ backup_filepath)]
          let metadata := d.config.get_metadata ++
            [("upload-timestamp", formatISO env.now1), ("timezone", o.timezone_name)]
          let uOut := upload_file s false backup_filepath backup_filename metadata
            env.fileExistsForUpload env.uploadDate env.putResult
          let ev3 := ev2 ++ [Event.uploadInvoked backup_filepath backup_filename] ++
            uOut.logs.map Event.logged
          match uOut.result with
          | .ok remote_path =>
              let ev4 := ev3 ++
                [Event.logged ("✅ Backup enviado para " ++ o.storage_type ++ ": " ++ remote_path)]
              let data_hora_br := formatBR env.now1
              let body := "Backup \x27" ++ backup_filename ++
                "\x27 da base de dados \x27" ++ o.db_database ++ "\x27 (" ++
                o.db_type ++ ") realizado com sucesso em " ++ data_hora_br ++
                " (" ++ o.timezone_name ++ ")!"
              cleanup backup_filepath env
                (ev4 ++ enviar_email "Database Backup - SUCESSO" body env.emailOk env.emailErrMsg)
          | .error e =>
              let data_hora_br := formatBR env.now2
              let body := "Falha no upload do backup da base de dados \x27" ++
                o.db_database ++ "\x27 (" ++ o.db_type ++ ") em " ++ data_hora_br ++
                " (" ++ o.timezone_name ++ ").\n\nErro: " ++ exnStr e
              let ev4 := ev3 ++
                [Event.logged ("❌ Erro no upload para " ++ o.storage_type ++ ": " ++ exnStr e)] ++
                enviar_email "Database Backup - ERRO" body env.emailOk env.emailErrMsg
              cleanup backup_filepath env ev4

/-- The notifications (subject, body) a run hands to the notifier boundary. -/
def notificationsOf (events : List Event) : List (String × String) :=
  events.filterMap fun e =>
    match e with
    | .notified subj body => some (subj, body)
    | _ => none

/-- The log lines a run emits. -/
def loggedOf (events : List Event) : List String :=
  events.filterMap fun e =>
    match e with
    | .logged msg => some msg
    | _ => none

/-- `pat` occurs as a contiguous substring of `s`. -/
def containsSub (s pat : String) : Prop := pat.data <:+: s.data

instance (s pat : String) : Decidable (containsSub s pat) := by
  unfold containsSub
  infer_instance

-- ── Generic helpers ─────────────────────────────────────────────────────────

/-- Construction (an `__init__` call) completed without raising `ValueError`. -/
def constructionOk {α : Type} : Except String α → Bool
  | .ok _ => true
  | .error _ => false

theorem constructionOk_map {α β : Type} (f : α → β) (e : Except String α) :
    constructionOk (e.map f) = constructionOk e := by
  cases e <;> rfl

theorem containsSub_refl (pat : String) : containsSub pat pat :=
  ⟨[], [], by simp⟩

theorem containsSub_left (t : String) {s pat : String} (h : containsSub s pat) :
    containsSub (t ++ s) pat := by
  obtain ⟨u, v, huv⟩ := h
  refine ⟨t.data ++ u, v, ?_⟩
  rw [String.data_append, ← huv]
  simp

theorem containsSub_right (t : String) {s pat : String} (h : containsSub s pat) :
    containsSub (s ++ t) pat := by
  obtain ⟨u, v, huv⟩ := h
  refine ⟨u, v ++ t.data, ?_⟩
  rw [String.data_append, ← huv]
  simp

-- ── C7: file-extension mapping ──────────────────────────────────────────────

/-- C7: for all supported engine kinds, `get_file_extension` returns the
fixed mapping postgres ↦ ".sql", mysql/mariadb ↦ ".sql", mssql ↦ ".bak". -/
theorem C7_file_extension_mapping :
    (dumperClassFor DbKind.postgres).get_file_extension = ".sql"
    ∧ (dumperClassFor DbKind.mysql).get_file_extension = ".sql"
    ∧ (dumperClassFor DbKind.mariadb).get_file_extension = ".sql"
    ∧ (dumperClassFor DbKind.mssql).get_file_extension = ".bak" :=
  ⟨rfl, rfl, rfl, rfl⟩

-- ── C5: construction succeeds iff required fields are non-empty ─────────────

/-- C5: `DatabaseDumper.__init__` succeeds iff host, port, user, password and
database are all non-empty; `R2Storage.__init__` additionally requires a
non-empty endpoint URL; `S3Storage.__init__` additionally requires a
non-empty region. The optional destination folder is never required. -/
theorem C5_construction_iff_required_nonempty :
    (∀ host port user password database db_type : String,
      constructionOk (DatabaseDumper.init host port user password database db_type) = true ↔
        host ≠ "" ∧ port ≠ "" ∧ user ≠ "" ∧ password ≠ "" ∧ database ≠ "")
    ∧ (∀ (endpoint_url access_key_id secret_access_key bucket_name : String)
        (destination_folder : Option String),
      constructionOk (R2Storage.init endpoint_url access_key_id secret_access_key
          bucket_name destination_folder) = true ↔
        endpoint_url ≠ "" ∧ access_key_id ≠ "" ∧ secret_access_key ≠ "" ∧ bucket_name ≠ "")
    ∧ (∀ (access_key_id secret_access_key bucket_name region : String)
        (endpoint_url destination_folder : Option String),
      constructionOk (S3Storage.init access_key_id secret_access_key bucket_name
          region endpoint_url destination_folder) = true ↔
        region ≠ "" ∧ access_key_id ≠ "" ∧ secret_access_key ≠ "" ∧ bucket_name ≠ "") := by
  refine ⟨fun host port user password database db_type => ?_,
          fun ep ak sk bn df => ?_, fun ak sk bn rg ep df => ?_⟩
  · unfold DatabaseDumper.init
    split
    · rename_i hcond
      simp only [constructionOk]
      constructor
      · intro h; cases h
      · intro h
        rcases hcond with h1 | h1 | h1 | h1 | h1 <;> tauto
    · rename_i hcond
      push_neg at hcond
      simp only [constructionOk, true_iff]
      tauto
  · unfold R2Storage.init
    split
    · rename_i hep
      simp only [constructionOk]
      tauto
    · rename_i hep
      rw [constructionOk_map]
      unfold StorageProvider.initBase
      split
      · rename_i hcond
        simp only [constructionOk]
        constructor
        · intro h; cases h
        · intro h; rcases hcond with h1 | h1 | h1 <;> tauto
      · rename_i hcond
        push_neg at hcond
        simp only [constructionOk, true_iff]
        tauto
  · unfold S3Storage.init
    split
    · rename_i hrg
      simp only [constructionOk]
      tauto
    · rename_i hrg
      rw [constructionOk_map]
      unfold StorageProvider.initBase
      split
      · rename_i hcond
        simp only [constructionOk]
        constructor
        · intro h; cases h
        · intro h; rcases hcond with h1 | h1 | h1 <;> tauto
      · rename_i hcond
        push_neg at hcond
        simp only [constructionOk, true_iff]
        tauto

/-- Witness for C5 at concrete configurations. -/
theorem C5_construction_iff_required_nonempty_witness :
    constructionOk (DatabaseDumper.init "db.local" "5432" "admin" "pw" "mydb" "postgres") = true
    ∧ constructionOk (R2Storage.init "https://r2.example" "AK" "SK" "bkt" (some "backups/")) = true
    ∧ constructionOk (S3Storage.init "AK" "SK" "bkt" "us-east-1" none (some "backups/")) = true :=
  ⟨(C5_construction_iff_required_nonempty.1 "db.local" "5432" "admin" "pw" "mydb" "postgres").mpr
      (by refine ⟨?_, ?_, ?_, ?_, ?_⟩ <;> decide),
   (C5_construction_iff_required_nonempty.2.1 "https://r2.example" "AK" "SK" "bkt"
      (some "backups/")).mpr (by refine ⟨?_, ?_, ?_, ?_⟩ <;> decide),
   (C5_construction_iff_required_nonempty.2.2 "AK" "SK" "bkt" "us-east-1" none
      (some "backups/")).mpr (by refine ⟨?_, ?_, ?_, ?_⟩ <;> decide)⟩

-- ── C8: missing local file fails before any network activity ────────────────

/-- C8: calling `upload_file` on a non-existent local path raises the
file-missing error with no network call issued and without the lazy client
being constructed (the instance's client state is left untouched). -/
theorem C8_file_missing_before_network (s : StorageFields) (hasClient : Bool)
    (local_filepath filename : String) (metadata : List (String × String))
    (d : LocalDate) (putResult : Except Exn Unit) :
    (upload_file s hasClient local_filepath filename metadata false d putResult).result =
        .error (.fileNotFoundError ("Arquivo não encontrado: " ++ local_filepath))
    ∧ (upload_file s hasClient local_filepath filename metadata false d putResult).networkCalls = 0
    ∧ (upload_file s hasClient local_filepath filename metadata false d putResult).hasClient = hasClient :=
  ⟨rfl, rfl, rfl⟩

-- ── C10: PGPASSWORD is set before pg_dump and stays set afterwards ──────────

/-- C10: every `PostgresDumper.dump` call writes the configured password into
the process-wide `PGPASSWORD` variable before launching `pg_dump` (the set
action strictly precedes the process launch in the call's action trace), and
the variable is still set when the call returns, on success and on failure
alike. -/
theorem C10_pgpassword_set_and_persists (c : DumperConfig)
    (osEnv : List (String × String)) (output_path : String)
    (processOk : Bool) (returncode : Nat) :
    lookupEnv (PostgresDumper.dump c osEnv output_path processOk returncode).osEnv
        "PGPASSWORD" = some c.password
    ∧ (PostgresDumper.dump c osEnv output_path processOk returncode).trace =
        [DumpEvent.setEnvVar "PGPASSWORD" c.password,
         DumpEvent.runProcess (pgDumpCommand c output_path)] := by
  constructor
  · simp [PostgresDumper.dump, setEnv, lookupEnv, List.find?]
  · rfl

-- ── Path-policy lemmas ──────────────────────────────────────────────────────

theorem digitChar_isDigit (n : Nat) : (digitChar n).isDigit = true := by
  unfold digitChar
  have h : n % 10 < 10 := Nat.mod_lt _ (by decide)
  interval_cases h2 : n % 10 <;> decide

theorem digitChar_ne_slash (n : Nat) : digitChar n ≠ '/' := by
  intro h
  have h2 := digitChar_isDigit n
  rw [h] at h2
  exact absurd h2 (by decide)

theorem formatYYYYMMDD_data (d : LocalDate) :
    (formatYYYYMMDD d).data =
      [digitChar (d.year / 1000), digitChar (d.year / 100), digitChar (d.year / 10),
       digitChar d.year, digitChar (d.month / 10), digitChar d.month,
       digitChar (d.day / 10), digitChar d.day] := rfl

theorem formatYYYYMMDD_length (d : LocalDate) : (formatYYYYMMDD d).length = 8 := rfl

theorem formatYYYYMMDD_digits (d : LocalDate) :
    ∀ c ∈ (formatYYYYMMDD d).data, c.isDigit = true := by
  intro c hc
  rw [formatYYYYMMDD_data] at hc
  simp only [List.mem_cons, List.not_mem_nil, or_false] at hc
  rcases hc with h | h | h | h | h | h | h | h <;> rw [h] <;> exact digitChar_isDigit _

theorem formatYYYYMMDD_no_slash (d : LocalDate) : '/' ∉ (formatYYYYMMDD d).data := by
  intro hc
  have := formatYYYYMMDD_digits d '/' hc
  exact absurd this (by decide)

theorem rstripSlash_no_trailing (s : String) :
    (rstripSlash s).data.getLast? ≠ some '/' := by
  show ((s.data.reverse.dropWhile (fun c => c == '/')).reverse).getLast? ≠ some '/'
  rw [List.getLast?_reverse]
  intro h
  have h2 := List.head?_dropWhile_not (fun c => c == '/') s.data.reverse
  rw [h] at h2
  exact absurd h2 (by decide)

-- ── C6: the path policy ─────────────────────────────────────────────────────

/-- C6: `_build_destination_path` is a pure function of the (folder, date,
filename) triple producing `normalized_folder ++ YYYYMMDD ++ "/" ++ filename`:
the folder is normalized to end in exactly one `/` (all trailing slashes are
stripped, then one is appended) or is empty when none is configured, the date
segment is the 8-digit `YYYYMMDD` rendering of the given local date (so it
contains no separator), and exactly one `/` stands between the date segment
and the filename. -/
theorem C6_path_policy_shape (folder filename : String) (d : LocalDate) :
    build_destination_path folder d filename =
      (if folder = "" then "" else rstripSlash folder ++ "/") ++
        (formatYYYYMMDD d ++ ("/" ++ filename))
    ∧ (formatYYYYMMDD d).length = 8
    ∧ (∀ c ∈ (formatYYYYMMDD d).data, c.isDigit = true)
    ∧ '/' ∉ (formatYYYYMMDD d).data
    ∧ (∃ t, (rstripSlash folder ++ "/").data = t ++ ['/'] ∧ t.getLast? ≠ some '/') := by
  refine ⟨?_, formatYYYYMMDD_length d, formatYYYYMMDD_digits d,
    formatYYYYMMDD_no_slash d, ?_⟩
  · unfold build_destination_path
    simp [String.append_assoc]
  · refine ⟨(rstripSlash folder).data, ?_, rstripSlash_no_trailing folder⟩
    rw [String.data_append]

/-- Witness for C6 at a concrete triple. -/
theorem C6_path_policy_shape_witness :
    build_destination_path "backups/" ⟨2026, 10, 12⟩ "backup_prod_20261012_030000.sql" =
      (if ("backups/" : String) = "" then "" else rstripSlash "backups/" ++ "/") ++
        (formatYYYYMMDD ⟨2026, 10, 12⟩ ++ ("/" ++ "backup_prod_20261012_030000.sql"))
    ∧ ('2' ∈ (formatYYYYMMDD ⟨2026, 10, 12⟩).data ∧ ('2' : Char).isDigit = true) :=
  ⟨(C6_path_policy_shape "backups/" "backup_prod_20261012_030000.sql" ⟨2026, 10, 12⟩).1,
   by decide,
   (C6_path_policy_shape "backups/" "backup_prod_20261012_030000.sql" ⟨2026, 10, 12⟩).2.2.1
      '2' (by decide)⟩

-- ── C9: constructed providers always carry a non-empty folder ───────────────

theorem initBase_folder_nonempty (access_key_id secret_access_key bucket_name : String)
    (destination_folder : Option String) (b : StorageFields)
    (h : StorageProvider.initBase access_key_id secret_access_key bucket_name
        destination_folder = .ok b) :
    b.destination_folder ≠ "" := by
  unfold StorageProvider.initBase at h
  split at h
  · cases h
  · injection h with h
    subst h
    cases destination_folder with
    | none => simp
    | some f =>
        by_cases hf : f = "" <;> simp [hf]

theorem build_destination_path_nonempty_folder (folder : String) (d : LocalDate)
    (filename : String) (h : folder ≠ "") :
    build_destination_path folder d filename =
      (rstripSlash folder ++ "/") ++ (formatYYYYMMDD d ++ ("/" ++ filename)) := by
  unfold build_destination_path
  rw [if_neg h]
  simp [String.append_assoc]

/-- C9: both public constructors replace a missing or empty configured folder
by "backups/", so every successfully constructed provider carries a non-empty
destination folder; consequently every remote key built for such a provider
takes the non-empty branch of `_build_destination_path` and starts with the
normalized folder ending in `/` — the empty-folder branch is unreachable
through `R2Storage.__init__` and `S3Storage.__init__`. -/
theorem C9_folder_nonempty_invariant :
    (∀ (endpoint_url access_key_id secret_access_key bucket_name : String)
        (destination_folder : Option String) (st : R2State),
      R2Storage.init endpoint_url access_key_id secret_access_key bucket_name
          destination_folder = .ok st →
        st.base.destination_folder ≠ ""
        ∧ ∀ (d : LocalDate) (filename : String),
            build_destination_path st.base.destination_folder d filename =
              (rstripSlash st.base.destination_folder ++ "/") ++
                (formatYYYYMMDD d ++ ("/" ++ filename)))
    ∧ (∀ (access_key_id secret_access_key bucket_name region : String)
        (endpoint_url destination_folder : Option String) (st : S3State),
      S3Storage.init access_key_id secret_access_key bucket_name region
          endpoint_url destination_folder = .ok st →
        st.base.destination_folder ≠ ""
        ∧ ∀ (d : LocalDate) (filename : String),
            build_destination_path st.base.destination_folder d filename =
              (rstripSlash st.base.destination_folder ++ "/") ++
                (formatYYYYMMDD d ++ ("/" ++ filename))) := by
  constructor
  · intro ep ak sk bn df st h
    unfold R2Storage.init at h
    split at h
    · cases h
    · cases hb : StorageProvider.initBase ak sk bn df with
      | error e => rw [hb] at h; cases h
      | ok b =>
          rw [hb] at h
          injection h with h
          subst h
          have hne := initBase_folder_nonempty ak sk bn df b hb
          exact ⟨hne, fun d fn => build_destination_path_nonempty_folder _ d fn hne⟩
  · intro ak sk bn rg ep df st h
    unfold S3Storage.init at h
    split at h
    · cases h
    · cases hb : StorageProvider.initBase ak sk bn df with
      | error e => rw [hb] at h; cases h
      | ok b =>
          rw [hb] at h
          injection h with h
          subst h
          have hne := initBase_folder_nonempty ak sk bn df b hb
          exact ⟨hne, fun d fn => build_destination_path_nonempty_folder _ d fn hne⟩

/-- Witness for C9: a concrete R2 construction with an empty configured
folder still yields the "backups/" default and a prefixed key. -/
theorem C9_folder_nonempty_invariant_witness :
    R2Storage.init "https://r2.example" "AK" "SK" "bkt" (some "") =
        .ok ⟨"https://r2.example", ⟨"AK", "SK", "bkt", "backups/"⟩⟩
    ∧ (⟨"AK", "SK", "bkt", "backups/"⟩ : StorageFields).destination_folder ≠ "" :=
  ⟨rfl,
   (C9_folder_nonempty_invariant.1 "https://r2.example" "AK" "SK" "bkt" (some "")
      ⟨"https://r2.example", ⟨"AK", "SK", "bkt", "backups/"⟩⟩ rfl).1⟩

-- ── Orchestrator trace lemmas ───────────────────────────────────────────────

theorem notificationsOf_append (a b : List Event) :
    notificationsOf (a ++ b) = notificationsOf a ++ notificationsOf b :=
  List.filterMap_append a b _

theorem notificationsOf_logged_map (ls : List String) :
    notificationsOf (ls.map Event.logged) = [] := by
  induction ls with
  | nil => rfl
  | cons x xs ih => simp [notificationsOf, List.filterMap]

theorem notificationsOf_enviar_email (subject body : String) (emailOk : Bool)
    (emailErrMsg : String) :
    notificationsOf (enviar_email subject body emailOk emailErrMsg) = [(subject, body)] := by
  cases emailOk <;> rfl

theorem notificationsOf_cleanup (backup_filepath : String) (env : RunEnv)
    (pre : List Event) :
    notificationsOf (cleanup backup_filepath env pre).events = notificationsOf pre := by
  unfold cleanup
  cases h1 : env.fileExistsAtCleanup <;> cases h2 : env.removeOk <;>
    simp [notificationsOf_append, notificationsOf]

theorem cleanup_raised_none (backup_filepath : String) (env : RunEnv)
    (pre : List Event)
    (h : env.fileExistsAtCleanup = false ∨ env.removeOk = true) :
    (cleanup backup_filepath env pre).raised = none := by
  unfold cleanup
  rcases h with h | h <;> cases h1 : env.fileExistsAtCleanup <;>
    cases h2 : env.removeOk <;> simp_all

theorem cleanup_removes_file (backup_filepath : String) (env : RunEnv)
    (pre : List Event) (h : env.removeOk = true) :
    (cleanup backup_filepath env pre).finalFileExists = false := by
  unfold cleanup
  cases h1 : env.fileExistsAtCleanup <;> simp [h]

theorem cleanup_absent_file (backup_filepath : String) (env : RunEnv)
    (pre : List Event) (h : env.fileExistsAtCleanup = false) :
    (cleanup backup_filepath env pre).finalFileExists = false := by
  unfold cleanup
  simp [h]

theorem cleanup_remove_error_escapes (backup_filepath : String) (env : RunEnv)
    (pre : List Event) (h1 : env.fileExistsAtCleanup = true)
    (h2 : env.removeOk = false) :
    (cleanup backup_filepath env pre).raised = some (Exn.osError env.removeErrMsg)
    ∧ (cleanup backup_filepath env pre).finalFileExists = true := by
  unfold cleanup
  simp [h1, h2]

theorem mem_cleanup_events_upload (backup_filepath : String) (env : RunEnv)
    (pre : List Event) (lp fn : String) :
    Event.uploadInvoked lp fn ∈ (cleanup backup_filepath env pre).events ↔
      Event.uploadInvoked lp fn ∈ pre := by
  unfold cleanup
  cases h1 : env.fileExistsAtCleanup <;> cases h2 : env.removeOk <;> simp

theorem enviar_email_no_upload (subject body : String) (emailOk : Bool)
    (emailErrMsg : String) (lp fn : String) :
    Event.uploadInvoked lp fn ∉ enviar_email subject body emailOk emailErrMsg := by
  cases emailOk <;> simp [enviar_email]

-- ── C2: a dump failure suppresses the upload ────────────────────────────────

/-- C2: whenever the dump raises (the external dump process exits nonzero),
`upload_file` is never invoked during that run — the run's trace carries no
upload-invocation action at all. -/
theorem C2_no_upload_after_dump_failure (o : Orchestrator) (env : RunEnv)
    (h : env.dumpOk = false) (lp fn : String) :
    Event.uploadInvoked lp fn ∉ (gerar_backup o env).events := by
  rcases o with ⟨od, os, stT, db, ty, tz⟩
  cases od with
  | none => simp [gerar_backup]
  | some d =>
    cases os with
    | none => simp [gerar_backup]
    | some s =>
      rcases d with ⟨cls, cfg⟩
      cases cls <;>
        simp only [gerar_backup, Dumper.dump, PostgresDumper.dump, MySQLDumper.dump,
          MSSQLDumper.dump, h, Bool.false_eq_true, if_false, ite_false] <;>
        rw [mem_cleanup_events_upload] <;>
        intro hmem <;>
        simp only [List.mem_append, List.mem_cons, List.mem_map,
          List.not_mem_nil, or_false, false_or] at hmem <;>
        rcases hmem with (h1 | h1) | h1 <;>
        first
          | (exact absurd h1 (by simp))
          | (exact enviar_email_no_upload _ _ _ _ _ _ h1)

-- ── The configured run always ends in the finally-block cleanup ─────────────

theorem gerar_backup_configured_eq_cleanup (o : Orchestrator) (env : RunEnv)
    (d : Dumper) (s : StorageFields)
    (hd : o.dumper = some d) (hs : o.storage = some s) :
    ∃ bp pre, gerar_backup o env = cleanup bp env pre := by
  rcases o with ⟨od, os, stT, db, ty, tz⟩
  obtain rfl : od = some d := hd
  obtain rfl : os = some s := hs
  rcases d with ⟨cls, cfg⟩
  rcases env with ⟨n1, n2, ud, dok, rc, feu, pr, fec, rok, rmsg, eok, emsg⟩
  cases cls <;> cases dok <;> cases feu <;> cases pr <;> exact ⟨_, _, rfl⟩

-- ── Concrete instances used by witnesses and counterexamples ────────────────

/-- A fully populated Postgres connection configuration. -/
def pgConfigEx : DumperConfig :=
  ⟨"db.local", "5432", "admin", "hunter2", "prod", "postgres"⟩

/-- A fully populated MySQL connection configuration whose password is the
marker string "s3cret". -/
def mysqlConfigEx : DumperConfig :=
  ⟨"db.local", "3306", "root", "s3cret", "prod", "mysql"⟩

/-- Storage fields as produced by a successful construction. -/
def storageEx : StorageFields := ⟨"AK", "SK", "bkt", "backups/"⟩

/-- A configured orchestrator with the Postgres dumper. -/
def orchPgEx : Orchestrator :=
  ⟨some ⟨.postgresDumper, pgConfigEx⟩, some storageEx, "r2", "prod", "postgres",
   "America/Sao_Paulo"⟩

/-- A configured orchestrator with the MySQL dumper. -/
def orchMysqlEx : Orchestrator :=
  ⟨some ⟨.mysqlDumper, mysqlConfigEx⟩, some storageEx, "r2", "prod", "mysql",
   "America/Sao_Paulo"⟩

/-- A fixed local wall-clock reading. -/
def timeEx : LocalDateTime := ⟨⟨2026, 10, 12⟩, 3, 0, 0⟩

/-- Oracle for a fully successful run. -/
def envAllOkEx : RunEnv :=
  { now1 := timeEx, now2 := timeEx, uploadDate := ⟨2026, 10, 12⟩
    dumpOk := true, dumpReturncode := 0
    fileExistsForUpload := true, putResult := .ok ()
    fileExistsAtCleanup := true, removeOk := true, removeErrMsg := ""
    emailOk := true, emailErrMsg := "" }

/-- Oracle for a run whose dump subprocess exits nonzero (status 2); the
partial temp file is absent at cleanup time. -/
def envDumpFailEx : RunEnv :=
  { envAllOkEx with dumpOk := false, dumpReturncode := 2, fileExistsAtCleanup := false }

/-- Oracle for a successful backup whose final `os.remove` raises. -/
def envRemoveFailEx : RunEnv :=
  { envAllOkEx with removeOk := false, removeErrMsg := "Permission denied" }

-- ── C1: cleanup on every exit path (corrected) ──────────────────────────────

/-- C1 (counterexample to the claim as stated): on a run where `os.remove`
raises, the error is NOT caught — it escapes `gerar_backup` to the caller,
contradicting "an error raised while deleting the file is logged and not
re-raised". -/
theorem C1_counterexample_remove_error_reraised :
    (gerar_backup orchPgEx envRemoveFailEx).raised =
      some (Exn.osError "Permission denied") := rfl

/-- C1 (amended): on every exit path of a configured run the `finally` block
runs and deletes the local temp file if it exists (whatever the dump, upload
and notification outcomes were), and no caught exception escapes the run —
but an error raised by the deletion itself is not caught: it propagates to
the caller and the file survives. -/
theorem C1_cleanup_on_every_path (o : Orchestrator) (env : RunEnv)
    (d : Dumper) (s : StorageFields)
    (hd : o.dumper = some d) (hs : o.storage = some s) :
    (env.removeOk = true →
      (gerar_backup o env).finalFileExists = false ∧ (gerar_backup o env).raised = none)
    ∧ (env.fileExistsAtCleanup = false →
      (gerar_backup o env).finalFileExists = false ∧ (gerar_backup o env).raised = none)
    ∧ (env.fileExistsAtCleanup = true → env.removeOk = false →
      (gerar_backup o env).raised = some (Exn.osError env.removeErrMsg)
      ∧ (gerar_backup o env).finalFileExists = true) := by
  obtain ⟨bp, pre, heq⟩ := gerar_backup_configured_eq_cleanup o env d s hd hs
  rw [heq]
  exact ⟨fun h => ⟨cleanup_removes_file _ _ _ h, cleanup_raised_none _ _ _ (Or.inr h)⟩,
         fun h => ⟨cleanup_absent_file _ _ _ h, cleanup_raised_none _ _ _ (Or.inl h)⟩,
         fun h1 h2 => cleanup_remove_error_escapes _ _ _ h1 h2⟩

/-- Witness for the amended C1 on a concrete successful run. -/
theorem C1_cleanup_on_every_path_witness :
    envAllOkEx.removeOk = true
    ∧ (gerar_backup orchPgEx envAllOkEx).finalFileExists = false :=
  ⟨rfl,
   ((C1_cleanup_on_every_path orchPgEx envAllOkEx ⟨.postgresDumper, pgConfigEx⟩
      storageEx rfl rfl).1 rfl).1⟩

/-- Witness for C2 on a concrete dump-failure run. -/
theorem C2_no_upload_after_dump_failure_witness :
    envDumpFailEx.dumpOk = false
    ∧ Event.uploadInvoked "/tmp/x" "x" ∉ (gerar_backup orchPgEx envDumpFailEx).events :=
  ⟨rfl, C2_no_upload_after_dump_failure orchPgEx envDumpFailEx rfl "/tmp/x" "x"⟩

-- ── C3: the dump-failure path leaks the database password ───────────────────

/-- Executable substring check. -/
def containsSubB (s pat : String) : Bool := decide (containsSub s pat)

/-- C3 (demonstrating the code bug at a failing input): with the MySQL engine
and password "s3cret", a nonzero dump exit raises `CalledProcessError`
carrying the full `mysqldump` command line — password included — and
`gerar_backup` interpolates `str(e)` both into its error log line and into
the failure notification body, so the configured secret appears verbatim in
a log line and in the notification, contradicting the redaction policy. -/
theorem C3_password_leak_on_mysql_dump_failure :
    ((notificationsOf (gerar_backup orchMysqlEx envDumpFailEx).events).any
        (fun nb => containsSubB nb.2 "s3cret")) = true
    ∧ ((loggedOf (gerar_backup orchMysqlEx envDumpFailEx).events).any
        (fun m => containsSubB m "s3cret")) = true := by
  set_option maxRecDepth 10000 in
  constructor <;> decide

theorem notificationsOf_nil : notificationsOf [] = [] := rfl

theorem notificationsOf_cons_logged (msg : String) (rest : List Event) :
    notificationsOf (Event.logged msg :: rest) = notificationsOf rest := rfl

theorem notificationsOf_cons_upload (lp fn : String) (rest : List Event) :
    notificationsOf (Event.uploadInvoked lp fn :: rest) = notificationsOf rest := rfl

-- ── Notification characterization per terminal case ─────────────────────────

theorem gerar_backup_notifications_dumpfail (d : Dumper) (s : StorageFields)
    (stT db ty tz : String) (env : RunEnv) (h : env.dumpOk = false) :
    notificationsOf (gerar_backup ⟨some d, some s, stT, db, ty, tz⟩ env).events =
      [("Database Backup - ERRO",
        "Falha ao gerar o backup da base de dados \x27" ++ db ++ "\x27 (" ++ ty ++
          ") em " ++ formatBR env.now2 ++ " (" ++ tz ++ ").\n\nErro: " ++
          exnStr (Exn.calledProcessError env.dumpReturncode
            (d.command ("/tmp/" ++ ("backup_" ++ db ++ "_" ++ formatTimestamp env.now1 ++
              d.cls.get_file_extension)))))] := by
  rcases d with ⟨cls, cfg⟩
  rcases env with ⟨n1, n2, ud, dok, rc, feu, pr, fec, rok, rmsg, eok, emsg⟩
  obtain rfl : dok = false := h
  cases cls <;>
    simp [gerar_backup, Dumper.dump, Dumper.command, PostgresDumper.dump,
      MySQLDumper.dump, MSSQLDumper.dump, DumperClass.get_file_extension,
      notificationsOf_cleanup, notificationsOf_append, notificationsOf_logged_map,
      notificationsOf_enviar_email, notificationsOf_nil, notificationsOf_cons_logged,
      notificationsOf_cons_upload]

theorem gerar_backup_notifications_success (d : Dumper) (s : StorageFields)
    (stT db ty tz : String) (env : RunEnv) (h1 : env.dumpOk = true)
    (h2 : env.fileExistsForUpload = true) (h3 : env.putResult = .ok ()) :
    notificationsOf (gerar_backup ⟨some d, some s, stT, db, ty, tz⟩ env).events =
      [("Database Backup - SUCESSO",
        "Backup \x27" ++ ("backup_" ++ db ++ "_" ++ formatTimestamp env.now1 ++
            d.cls.get_file_extension) ++
          "\x27 da base de dados \x27" ++ db ++ "\x27 (" ++ ty ++
          ") realizado com sucesso em " ++ formatBR env.now1 ++ " (" ++ tz ++ ")!")] := by
  rcases d with ⟨cls, cfg⟩
  rcases env with ⟨n1, n2, ud, dok, rc, feu, pr, fec, rok, rmsg, eok, emsg⟩
  obtain rfl : dok = true := h1
  obtain rfl : feu = true := h2
  obtain rfl : pr = Except.ok () := h3
  cases cls <;>
    simp [gerar_backup, Dumper.dump, PostgresDumper.dump,
      MySQLDumper.dump, MSSQLDumper.dump, DumperClass.get_file_extension, upload_file,
      notificationsOf_cleanup, notificationsOf_append, notificationsOf_logged_map,
      notificationsOf_enviar_email, notificationsOf_nil, notificationsOf_cons_logged,
      notificationsOf_cons_upload]

theorem gerar_backup_notifications_putfail (d : Dumper) (s : StorageFields)
    (stT db ty tz : String) (env : RunEnv) (e : Exn) (h1 : env.dumpOk = true)
    (h2 : env.fileExistsForUpload = true) (h3 : env.putResult = .error e) :
    notificationsOf (gerar_backup ⟨some d, some s, stT, db, ty, tz⟩ env).events =
      [("Database Backup - ERRO",
        "Falha no upload do backup da base de dados \x27" ++ db ++ "\x27 (" ++ ty ++
          ") em " ++ formatBR env.now2 ++ " (" ++ tz ++ ").\n\nErro: " ++ exnStr e)] := by
  rcases d with ⟨cls, cfg⟩
  rcases env with ⟨n1, n2, ud, dok, rc, feu, pr, fec, rok, rmsg, eok, emsg⟩
  obtain rfl : dok = true := h1
  obtain rfl : feu = true := h2
  obtain rfl : pr = Except.error e := h3
  cases cls <;>
    simp [gerar_backup, Dumper.dump, PostgresDumper.dump,
      MySQLDumper.dump, MSSQLDumper.dump, DumperClass.get_file_extension, upload_file,
      notificationsOf_cleanup, notificationsOf_append, notificationsOf_logged_map,
      notificationsOf_enviar_email, notificationsOf_nil, notificationsOf_cons_logged,
      notificationsOf_cons_upload]

theorem gerar_backup_notifications_missingfile (d : Dumper) (s : StorageFields)
    (stT db ty tz : String) (env : RunEnv) (h1 : env.dumpOk = true)
    (h2 : env.fileExistsForUpload = false) :
    notificationsOf (gerar_backup ⟨some d, some s, stT, db, ty, tz⟩ env).events =
      [("Database Backup - ERRO",
        "Falha no upload do backup da base de dados \x27" ++ db ++ "\x27 (" ++ ty ++
          ") em " ++ formatBR env.now2 ++ " (" ++ tz ++ ").\n\nErro: " ++
          exnStr (Exn.fileNotFoundError ("Arquivo não encontrado: " ++
            ("/tmp/" ++ ("backup_" ++ db ++ "_" ++ formatTimestamp env.now1 ++
              d.cls.get_file_extension)))))] := by
  rcases d with ⟨cls, cfg⟩
  rcases env with ⟨n1, n2, ud, dok, rc, feu, pr, fec, rok, rmsg, eok, emsg⟩
  obtain rfl : dok = true := h1
  obtain rfl : feu = false := h2
  cases cls <;>
    simp [gerar_backup, Dumper.dump, PostgresDumper.dump,
      MySQLDumper.dump, MSSQLDumper.dump, DumperClass.get_file_extension, upload_file,
      notificationsOf_cleanup, notificationsOf_append, notificationsOf_logged_map,
      notificationsOf_enviar_email, notificationsOf_nil, notificationsOf_cons_logged,
      notificationsOf_cons_upload]

-- ── C4: exactly one notification per configured run ─────────────────────────

/-- C4: when both collaborators were constructed, every run hands exactly one
(subject, body) pair to the notifier: its body always names the database, the
engine kind and the timezone; on full success the subject is the success one
and the body carries the run's local timestamp; on dump failure or upload
failure the subject is the error one and the body carries the (re-read) local
timestamp plus the captured error detail. A notifier failure never fails the
run: whatever the SMTP outcome, no exception escapes unless the deletion in
the finally block itself fails. -/
theorem C4_exactly_one_notification (o : Orchestrator) (env : RunEnv)
    (d : Dumper) (s : StorageFields)
    (hd : o.dumper = some d) (hs : o.storage = some s) :
    (notificationsOf (gerar_backup o env).events).length = 1
    ∧ (∀ subj body, (subj, body) ∈ notificationsOf (gerar_backup o env).events →
        containsSub body o.db_database
        ∧ containsSub body o.db_type
        ∧ containsSub body o.timezone_name
        ∧ (env.dumpOk = true → env.fileExistsForUpload = true →
            env.putResult = Except.ok () →
            subj = "Database Backup - SUCESSO" ∧ containsSub body (formatBR env.now1))
        ∧ (env.dumpOk = false →
            subj = "Database Backup - ERRO" ∧ containsSub body (formatBR env.now2)
            ∧ containsSub body (exnStr (Exn.calledProcessError env.dumpReturncode
                (d.command ("/tmp/" ++ ("backup_" ++ o.db_database ++ "_" ++
                  formatTimestamp env.now1 ++ d.cls.get_file_extension))))))
        ∧ (∀ e, env.dumpOk = true → env.fileExistsForUpload = true →
            env.putResult = Except.error e →
            subj = "Database Backup - ERRO" ∧ containsSub body (formatBR env.now2)
            ∧ containsSub body (exnStr e)))
    ∧ ((env.fileExistsAtCleanup = false ∨ env.removeOk = true) →
        (gerar_backup o env).raised = none) := by
  rcases o with ⟨od, os, stT, db, ty, tz⟩
  obtain rfl : od = some d := hd
  obtain rfl : os = some s := hs
  refine ⟨?_, ?_, ?_⟩
  · cases hdok : env.dumpOk
    · rw [gerar_backup_notifications_dumpfail d s stT db ty tz env hdok]; rfl
    · cases hfeu : env.fileExistsForUpload
      · rw [gerar_backup_notifications_missingfile d s stT db ty tz env hdok hfeu]; rfl
      · cases hpr : env.putResult with
        | ok u =>
            cases u
            rw [gerar_backup_notifications_success d s stT db ty tz env hdok hfeu hpr]
            rfl
        | error e =>
            rw [gerar_backup_notifications_putfail d s stT db ty tz env e hdok hfeu hpr]
            rfl
  · intro subj body hmem
    cases hdok : env.dumpOk
    · rw [gerar_backup_notifications_dumpfail d s stT db ty tz env hdok] at hmem
      simp only [List.mem_singleton, Prod.mk.injEq] at hmem
      obtain ⟨rfl, rfl⟩ := hmem
      refine ⟨?_, ?_, ?_, ?_, ?_, ?_⟩
      · exact containsSub_right _ (containsSub_right _ (containsSub_right _
          (containsSub_right _ (containsSub_right _ (containsSub_right _
          (containsSub_right _ (containsSub_right _
          (containsSub_left _ (containsSub_refl _)))))))))
      · exact containsSub_right _ (containsSub_right _ (containsSub_right _
          (containsSub_right _ (containsSub_right _ (containsSub_right _
          (containsSub_left _ (containsSub_refl _)))))))
      · exact containsSub_right _ (containsSub_right _
          (containsSub_left _ (containsSub_refl _)))
      · intro h; exact Bool.noConfusion h
      · intro _
        refine ⟨rfl, ?_, ?_⟩
        · exact containsSub_right _ (containsSub_right _ (containsSub_right _
            (containsSub_right _ (containsSub_left _ (containsSub_refl _)))))
        · exact containsSub_left _ (containsSub_refl _)
      · intro e h; exact Bool.noConfusion h
    · cases hfeu : env.fileExistsForUpload
      · rw [gerar_backup_notifications_missingfile d s stT db ty tz env hdok hfeu] at hmem
        simp only [List.mem_singleton, Prod.mk.injEq] at hmem
        obtain ⟨rfl, rfl⟩ := hmem
        refine ⟨?_, ?_, ?_, ?_, ?_, ?_⟩
        · exact containsSub_right _ (containsSub_right _ (containsSub_right _
            (containsSub_right _ (containsSub_right _ (containsSub_right _
            (containsSub_right _ (containsSub_right _
            (containsSub_left _ (containsSub_refl _)))))))))
        · exact containsSub_right _ (containsSub_right _ (containsSub_right _
            (containsSub_right _ (containsSub_right _ (containsSub_right _
            (containsSub_left _ (containsSub_refl _)))))))
        · exact containsSub_right _ (containsSub_right _
            (containsSub_left _ (containsSub_refl _)))
        · intro _ h2; exact Bool.noConfusion h2
        · intro h; exact Bool.noConfusion h
        · intro e _ h2; exact Bool.noConfusion h2
      · cases hpr : env.putResult with
        | ok u =>
            cases u
            rw [gerar_backup_notifications_success d s stT db ty tz env hdok hfeu hpr] at hmem
            simp only [List.mem_singleton, Prod.mk.injEq] at hmem
            obtain ⟨rfl, rfl⟩ := hmem
            refine ⟨?_, ?_, ?_, ?_, ?_, ?_⟩
            · exact containsSub_right _ (containsSub_right _ (containsSub_right _
                (containsSub_right _ (containsSub_right _ (containsSub_right _
                (containsSub_right _ (containsSub_left _ (containsSub_refl _))))))))
            · exact containsSub_right _ (containsSub_right _ (containsSub_right _
                (containsSub_right _ (containsSub_right _
                (containsSub_left _ (containsSub_refl _))))))
            · exact containsSub_right _ (containsSub_left _ (containsSub_refl _))
            · intro _ _ _
              refine ⟨rfl, ?_⟩
              exact containsSub_right _ (containsSub_right _ (containsSub_right _
                (containsSub_left _ (containsSub_refl _))))
            · intro h; exact Bool.noConfusion h
            · intro e _ _ h3; exact Except.noConfusion h3
        | error e0 =>
            rw [gerar_backup_notifications_putfail d s stT db ty tz env e0 hdok hfeu hpr] at hmem
            simp only [List.mem_singleton, Prod.mk.injEq] at hmem
            obtain ⟨rfl, rfl⟩ := hmem
            refine ⟨?_, ?_, ?_, ?_, ?_, ?_⟩
            · exact containsSub_right _ (containsSub_right _ (containsSub_right _
                (containsSub_right _ (containsSub_right _ (containsSub_right _
                (containsSub_right _ (containsSub_right _
                (containsSub_left _ (containsSub_refl _)))))))))
            · exact containsSub_right _ (containsSub_right _ (containsSub_right _
                (containsSub_right _ (containsSub_right _ (containsSub_right _
                (containsSub_left _ (containsSub_refl _)))))))
            · exact containsSub_right _ (containsSub_right _
                (containsSub_left _ (containsSub_refl _)))
            · intro _ _ h3; exact Except.noConfusion h3
            · intro h; exact Bool.noConfusion h
            · intro e _ _ h3
              injection h3 with h4
              subst h4
              refine ⟨rfl, ?_, ?_⟩
              · exact containsSub_right _ (containsSub_right _ (containsSub_right _
                  (containsSub_right _ (containsSub_left _ (containsSub_refl _)))))
              · exact containsSub_left _ (containsSub_refl _)
  · intro h
    obtain ⟨bp, pre, heq⟩ :=
      gerar_backup_configured_eq_cleanup ⟨some d, some s, stT, db, ty, tz⟩ env d s rfl rfl
    rw [heq]
    exact cleanup_raised_none _ _ _ h

/-- Witness for C4 on a concrete fully successful run. -/
theorem C4_exactly_one_notification_witness :
    orchPgEx.dumper = some ⟨DumperClass.postgresDumper, pgConfigEx⟩
    ∧ (notificationsOf (gerar_backup orchPgEx envAllOkEx).events).length = 1 :=
  ⟨rfl,
   (C4_exactly_one_notification orchPgEx envAllOkEx ⟨DumperClass.postgresDumper, pgConfigEx⟩
      storageEx rfl rfl).1⟩
